import Mathlib

/-!
Verification of the monitoring core of the study-buddy repository:
the notification throttle (src/monitor/notify_manager.py), the rule
checker (src/monitor/simple_rule_checker.py), the snapshot pipeline and
daily scheduler (src/monitor/simple_monitor_service.py), and the camera
mode arbiter (src/vision/camera_singleton.py).

Modelling conventions: datetime.now() values are integer seconds passed
in explicitly; timedelta values are integer seconds (the constructor
multiplies configured minutes by 60, as timedelta(minutes=m) does);
Python dicts keyed by strings are association lists in insertion order.
-/

namespace StudyBuddy

/-- Notification severity levels (class NotifyLevel). -/
inductive NotifyLevel where
  | info
  | warning
  | danger
deriving DecidableEq

/-- Result record returned by should_notify_stop (dataclass NotifyResult). -/
structure NotifyResult where
  should_notify : Bool
  should_stop : Bool
  level : NotifyLevel
  reason : String
deriving DecidableEq

/-- Configuration and mutable state of class NotifyManager.  The two
interval fields hold seconds (timedelta values); counts are naturals,
matching the non-negative values the class ever holds. -/
structure NotifyManager where
  min_notify_interval : Int
  max_notify_interval : Int
  consecutive_fail_limit : Nat
  last_notify_time : Option Int
  consecutive_failures : Nat
deriving DecidableEq

/-- NotifyManager.__init__: intervals are given in minutes and stored as
timedelta(minutes=...), i.e. 60 times as many seconds. -/
def NotifyManager.init (min_notify_interval max_notify_interval : Int)
    (consecutive_fail_limit : Nat) : NotifyManager :=
  { min_notify_interval := min_notify_interval * 60
    max_notify_interval := max_notify_interval * 60
    consecutive_fail_limit := consecutive_fail_limit
    last_notify_time := none
    consecutive_failures := 0 }

/-- NotifyManager.should_notify_stop, with datetime.now() passed in as
the argument now.  Returns the NotifyResult together with the updated
manager state.  The interpolated seconds shown inside reason strings use
the whole time difference where the source displays timedelta.seconds. -/
def NotifyManager.should_notify_stop (m : NotifyManager) (now : Int)
    (is_valid : Bool) : NotifyResult × NotifyManager :=
  -- 1. stop check, read before this call updates the counter
  if m.consecutive_failures ≥ m.consecutive_fail_limit then
    ({ should_notify := false, should_stop := true, level := NotifyLevel.danger,
       reason := "连续失败 " ++ toString m.consecutive_failures ++ " 次，已达到限制" }, m)
  else
    -- 2. update the consecutive failure counter
    let m1 : NotifyManager :=
      if is_valid then { m with consecutive_failures := 0 }
      else { m with consecutive_failures := m.consecutive_failures + 1 }
    -- 3. first ever check always notifies
    match m1.last_notify_time with
    | none =>
      ({ should_notify := true, should_stop := false,
         level := if is_valid then NotifyLevel.info else NotifyLevel.warning,
         reason := if is_valid then "首次检查" else "首次检查，发现问题" },
       { m1 with last_notify_time := some now })
    | some t =>
      let time_since_last_notify : Int := now - t
      -- 4. too soon since the last notification: suppress
      if time_since_last_notify < m1.min_notify_interval then
        ({ should_notify := false, should_stop := false, level := NotifyLevel.info,
           reason := "距离上次通知仅 " ++ toString time_since_last_notify
                     ++ "s，小于最小间隔" }, m1)
      -- 5. too long since the last notification: force one
      else if time_since_last_notify > m1.max_notify_interval then
        ({ should_notify := true, should_stop := false, level := NotifyLevel.info,
           reason := if is_valid then "更新状态 - 正常" else "更新状态 - 仍有问题" },
         { m1 with last_notify_time := some now })
      -- 6. normal case: an invalid check notifies
      else if !is_valid then
        ({ should_notify := true, should_stop := false, level := NotifyLevel.warning,
           reason := "连续失败 " ++ toString m1.consecutive_failures ++ " 次" },
         { m1 with last_notify_time := some now })
      -- 7. valid and inside the window: stay quiet
      else
        ({ should_notify := false, should_stop := false, level := NotifyLevel.info,
           reason := "状态正常" }, m1)

/-- NotifyManager.reset: clears both state fields, keeps the configuration. -/
def NotifyManager.reset (m : NotifyManager) : NotifyManager :=
  { m with consecutive_failures := 0, last_notify_time := none }

/-- Runs should_notify_stop over a list of (now, is_valid) inputs,
collecting the per-call results and the final state. -/
def NotifyManager.runCalls : NotifyManager → List (Int × Bool) →
    List NotifyResult × NotifyManager
  | m, [] => ([], m)
  | m, (t, v) :: rest =>
    let step := m.should_notify_stop t v
    let r := NotifyManager.runCalls step.2 rest
    (step.1 :: r.1, r.2)

/-- Helper: once the failure counter has reached the limit, the call takes
the stop branch and returns with the state untouched. -/
theorem should_notify_stop_at_limit (m : NotifyManager) (now : Int) (v : Bool)
    (h : m.consecutive_fail_limit ≤ m.consecutive_failures) :
    m.should_notify_stop now v =
      ({ should_notify := false, should_stop := true, level := NotifyLevel.danger,
         reason := "连续失败 " ++ toString m.consecutive_failures ++ " 次，已达到限制" }, m) := by
  unfold NotifyManager.should_notify_stop
  rw [if_pos h]

/-- Helper: below the limit, a failing call increments the counter, keeps
the limit, and does not stop. -/
theorem should_notify_stop_fail_step (m : NotifyManager) (now : Int)
    (h : m.consecutive_failures < m.consecutive_fail_limit) :
    (m.should_notify_stop now false).1.should_stop = false ∧
    (m.should_notify_stop now false).2.consecutive_failures = m.consecutive_failures + 1 ∧
    (m.should_notify_stop now false).2.consecutive_fail_limit = m.consecutive_fail_limit := by
  unfold NotifyManager.should_notify_stop
  rw [if_neg (by omega)]
  cases hl : m.last_notify_time <;> simp [hl] <;> (repeat' split) <;> simp

/-- Helper: a run of failing calls that stays below the limit never stops,
and adds its length to the failure counter without touching the limit. -/
theorem runCalls_all_false_below_limit (times : List Int) :
    ∀ m : NotifyManager,
      m.consecutive_failures + times.length ≤ m.consecutive_fail_limit →
      (∀ r ∈ (NotifyManager.runCalls m (times.map fun s => (s, false))).1,
          r.should_stop = false) ∧
      (NotifyManager.runCalls m (times.map fun s => (s, false))).2.consecutive_failures
          = m.consecutive_failures + times.length ∧
      (NotifyManager.runCalls m (times.map fun s => (s, false))).2.consecutive_fail_limit
          = m.consecutive_fail_limit := by
  induction times with
  | nil =>
    intro m _
    exact ⟨by simp [NotifyManager.runCalls], by simp [NotifyManager.runCalls],
      by simp [NotifyManager.runCalls]⟩
  | cons t rest ih =>
    intro m h
    simp only [List.length_cons] at h
    have hlt : m.consecutive_failures < m.consecutive_fail_limit := by omega
    have hstep := should_notify_stop_fail_step m t hlt
    have h2 : (m.should_notify_stop t false).2.consecutive_failures + rest.length ≤
        (m.should_notify_stop t false).2.consecutive_fail_limit := by
      rw [hstep.2.1, hstep.2.2]; omega
    have hrest := ih (m.should_notify_stop t false).2 h2
    refine ⟨?_, ?_, ?_⟩
    · intro r hr
      simp only [List.map_cons, NotifyManager.runCalls, List.mem_cons] at hr
      rcases hr with h1 | h1
      · rw [h1]; exact hstep.1
      · exact hrest.1 r h1
    · simp only [List.map_cons, NotifyManager.runCalls, List.length_cons]
      rw [hrest.2.1, hstep.2.1]; omega
    · simp only [List.map_cons, NotifyManager.runCalls]
      rw [hrest.2.2, hstep.2.2]

/-- Claim C1: with consecutive_fail_limit = L at least 1, L consecutive
failing calls from the reset state each return should_stop = false and
leave the counter at L, and the next call returns should_stop = true with
should_notify = false and severity danger: the stop check reads the
counter before this call updates it. -/
theorem fail_limit_stop_on_next_call (m : NotifyManager) (L : Nat)
    (times : List Int) (t : Int)
    (hL : 1 ≤ L) (hlim : m.consecutive_fail_limit = L) (hlen : times.length = L) :
    (∀ r ∈ (NotifyManager.runCalls m.reset (times.map fun s => (s, false))).1,
        r.should_stop = false) ∧
    (NotifyManager.runCalls m.reset (times.map fun s => (s, false))).2.consecutive_failures
        = L ∧
    ((NotifyManager.runCalls m.reset
        (times.map fun s => (s, false))).2.should_notify_stop t false).1.should_stop = true ∧
    ((NotifyManager.runCalls m.reset
        (times.map fun s => (s, false))).2.should_notify_stop t false).1.should_notify = false ∧
    ((NotifyManager.runCalls m.reset
        (times.map fun s => (s, false))).2.should_notify_stop t false).1.level
        = NotifyLevel.danger := by
  have hr0 : m.reset.consecutive_failures = 0 := rfl
  have hr1 : m.reset.consecutive_fail_limit = m.consecutive_fail_limit := rfl
  have hacc := runCalls_all_false_below_limit times m.reset
    (by rw [hr0, hr1, hlim, hlen]; omega)
  have hcf : (NotifyManager.runCalls m.reset
      (times.map fun s => (s, false))).2.consecutive_failures = L := by
    rw [hacc.2.1, hr0, hlen]; omega
  have hlim2 : (NotifyManager.runCalls m.reset
      (times.map fun s => (s, false))).2.consecutive_fail_limit = L := by
    rw [hacc.2.2, hr1, hlim]
  have hstop := should_notify_stop_at_limit
    (NotifyManager.runCalls m.reset (times.map fun s => (s, false))).2 t false
    (by rw [hcf, hlim2])
  exact ⟨hacc.1, hcf, by rw [hstop], by rw [hstop], by rw [hstop]⟩

/-- Witness for C1 at L = 2, calls at times 0, 60 and 120. -/
theorem fail_limit_stop_on_next_call_witness :
    (NotifyManager.runCalls (NotifyManager.init 10 60 2).reset
        ([(0 : Int), 60].map fun s => (s, false))).2.consecutive_failures = 2 ∧
    ((NotifyManager.runCalls (NotifyManager.init 10 60 2).reset
        ([(0 : Int), 60].map fun s => (s, false))).2.should_notify_stop 120 false).1.should_stop
        = true ∧
    ((NotifyManager.runCalls (NotifyManager.init 10 60 2).reset
        ([(0 : Int), 60].map fun s => (s, false))).2.should_notify_stop 120 false).1.should_notify
        = false :=
  ⟨(fail_limit_stop_on_next_call (NotifyManager.init 10 60 2) 2 [0, 60] 120
      (by decide) rfl rfl).2.1,
   (fail_limit_stop_on_next_call (NotifyManager.init 10 60 2) 2 [0, 60] 120
      (by decide) rfl rfl).2.2.1,
   (fail_limit_stop_on_next_call (NotifyManager.init 10 60 2) 2 [0, 60] 120
      (by decide) rfl rfl).2.2.2.1⟩

/-- Claim C2: should_notify_stop writes last_notify_time := now exactly on
the branches that return should_notify = true, and leaves it unchanged on
every branch that returns should_notify = false. -/
theorem last_notify_time_refreshed_iff_notify (m : NotifyManager) (now : Int) (v : Bool) :
    (m.should_notify_stop now v).2.last_notify_time =
      (if (m.should_notify_stop now v).1.should_notify = true then some now
       else m.last_notify_time) := by
  unfold NotifyManager.should_notify_stop
  by_cases h0 : m.consecutive_failures ≥ m.consecutive_fail_limit
  · simp [h0]
  · cases v <;> cases hl : m.last_notify_time <;> simp [h0, hl] <;> split_ifs <;> simp_all

/-- Claim C10: no call ever returns should_notify = true together with
should_stop = true. -/
theorem never_notify_and_stop_together (m : NotifyManager) (now : Int) (v : Bool) :
    ((m.should_notify_stop now v).1.should_notify &&
      (m.should_notify_stop now v).1.should_stop) = false := by
  unfold NotifyManager.should_notify_stop
  by_cases h0 : m.consecutive_failures ≥ m.consecutive_fail_limit
  · simp [h0]
  · cases v <;> cases hl : m.last_notify_time <;> simp [h0, hl] <;> split_ifs <;> simp_all

/-- Claim C9: once the failure counter has reached the limit, every later
call returns should_stop = true and leaves the whole state unchanged
(any validity flags, any times), and reset clears both state fields. -/
theorem fail_limit_state_absorbing_until_reset (m : NotifyManager)
    (inputs : List (Int × Bool))
    (h : m.consecutive_fail_limit ≤ m.consecutive_failures) :
    (NotifyManager.runCalls m inputs).2 = m ∧
    (∀ r ∈ (NotifyManager.runCalls m inputs).1, r.should_stop = true) ∧
    m.reset.consecutive_failures = 0 ∧
    m.reset.last_notify_time = none := by
  induction inputs with
  | nil => exact ⟨rfl, by simp [NotifyManager.runCalls], rfl, rfl⟩
  | cons p rest ih =>
    obtain ⟨t, v⟩ := p
    have hstep := should_notify_stop_at_limit m t v h
    refine ⟨?_, ?_, rfl, rfl⟩
    · simp only [NotifyManager.runCalls, hstep]
      exact ih.1
    · intro r hr
      simp only [NotifyManager.runCalls, hstep, List.mem_cons] at hr
      rcases hr with h1 | h1
      · rw [h1]
      · exact ih.2.1 r h1

/-- Witness for C9: a manager whose counter 2 has reached its limit 2. -/
theorem fail_limit_state_absorbing_witness :
    (NotifyManager.runCalls ⟨600, 3600, 2, none, 2⟩ [((0 : Int), true), ((50 : Int), false)]).2
        = ⟨600, 3600, 2, none, 2⟩ ∧
    (NotifyManager.reset ⟨600, 3600, 2, none, 2⟩).consecutive_failures = 0 ∧
    (NotifyManager.reset ⟨600, 3600, 2, none, 2⟩).last_notify_time = none :=
  ⟨(fail_limit_state_absorbing_until_reset ⟨600, 3600, 2, none, 2⟩
      [((0 : Int), true), ((50 : Int), false)] (by decide)).1,
   (fail_limit_state_absorbing_until_reset ⟨600, 3600, 2, none, 2⟩
      [((0 : Int), true), ((50 : Int), false)] (by decide)).2.2.1,
   (fail_limit_state_absorbing_until_reset ⟨600, 3600, 2, none, 2⟩
      [((0 : Int), true), ((50 : Int), false)] (by decide)).2.2.2⟩

/-- Claim C6: with a recorded last notification less than
min_notify_interval ago and the stop check not firing, the call never
notifies and reports severity info, for either validity value; hence two
failing calls less than min_notify_interval apart, started from the reset
state with limit at least 2, produce exactly one notification: the first
call notifies and the second does not. -/
theorem min_interval_suppresses (m : NotifyManager) (now t : Int) (v : Bool)
    (hlast : m.last_notify_time = some t)
    (hsoon : now - t < m.min_notify_interval)
    (hnostop : m.consecutive_failures < m.consecutive_fail_limit)
    (m2 : NotifyManager) (t1 t2 : Int)
    (hnone : m2.last_notify_time = none) (hcf : m2.consecutive_failures = 0)
    (hlim : 2 ≤ m2.consecutive_fail_limit)
    (hgap : t2 - t1 < m2.min_notify_interval) :
    ((m.should_notify_stop now v).1.should_notify = false ∧
     (m.should_notify_stop now v).1.should_stop = false ∧
     (m.should_notify_stop now v).1.level = NotifyLevel.info) ∧
    ((m2.should_notify_stop t1 false).1.should_notify = true ∧
     ((m2.should_notify_stop t1 false).2.should_notify_stop t2 false).1.should_notify
        = false) := by
  constructor
  · unfold NotifyManager.should_notify_stop
    rw [if_neg (by omega)]
    cases v <;> simp [hlast, hsoon]
  · have e1 : m2.should_notify_stop t1 false =
        ({ should_notify := true, should_stop := false, level := NotifyLevel.warning,
           reason := "首次检查，发现问题" },
         { m2 with consecutive_failures := m2.consecutive_failures + 1,
                   last_notify_time := some t1 }) := by
      unfold NotifyManager.should_notify_stop
      rw [if_neg (by omega)]
      simp [hnone]
    refine ⟨by rw [e1], ?_⟩
    rw [e1]
    unfold NotifyManager.should_notify_stop
    rw [if_neg (by simp; omega)]
    simp [hgap]

/-- Witness for C6: min interval 600 s, two failing calls 120 s apart. -/
theorem min_interval_suppresses_witness :
    ((((⟨600, 3600, 5, some 0, 1⟩ : NotifyManager).should_notify_stop 120 false).1.should_notify
        = false) ∧
      (((⟨600, 3600, 5, some 0, 1⟩ : NotifyManager).should_notify_stop 120 false).1.should_stop
        = false) ∧
      (((⟨600, 3600, 5, some 0, 1⟩ : NotifyManager).should_notify_stop 120 false).1.level
        = NotifyLevel.info)) ∧
    ((((⟨600, 3600, 5, none, 0⟩ : NotifyManager).should_notify_stop 0 false).1.should_notify
        = true) ∧
     ((((⟨600, 3600, 5, none, 0⟩ : NotifyManager).should_notify_stop 0 false).2.should_notify_stop
          120 false).1.should_notify = false)) :=
  min_interval_suppresses ⟨600, 3600, 5, some 0, 1⟩ 120 0 false rfl (by decide) (by decide)
    ⟨600, 3600, 5, none, 0⟩ 0 120 rfl rfl (by decide) (by decide)

/-- Claim C7: with a recorded last notification at least
min_notify_interval and strictly more than max_notify_interval ago, and
the stop check not firing, the call forces a notification with severity
info and refreshes last_notify_time, regardless of validity. -/
theorem max_interval_forces (m : NotifyManager) (now t : Int) (v : Bool)
    (hlast : m.last_notify_time = some t)
    (hmin : m.min_notify_interval ≤ now - t)
    (hmax : m.max_notify_interval < now - t)
    (hnostop : m.consecutive_failures < m.consecutive_fail_limit) :
    (m.should_notify_stop now v).1.should_notify = true ∧
    (m.should_notify_stop now v).1.should_stop = false ∧
    (m.should_notify_stop now v).1.level = NotifyLevel.info ∧
    (m.should_notify_stop now v).2.last_notify_time = some now := by
  unfold NotifyManager.should_notify_stop
  rw [if_neg (by omega)]
  cases v <;> simp [hlast, not_lt.mpr hmin, hmax]

/-- Witness for C7: max interval 3600 s exceeded by a 4000 s gap, with a
passing check. -/
theorem max_interval_forces_witness :
    (((⟨600, 3600, 5, some 0, 2⟩ : NotifyManager).should_notify_stop 4000 true).1.should_notify
        = true) ∧
    (((⟨600, 3600, 5, some 0, 2⟩ : NotifyManager).should_notify_stop 4000 true).1.should_stop
        = false) ∧
    (((⟨600, 3600, 5, some 0, 2⟩ : NotifyManager).should_notify_stop 4000 true).1.level
        = NotifyLevel.info) ∧
    (((⟨600, 3600, 5, some 0, 2⟩ : NotifyManager).should_notify_stop 4000 true).2.last_notify_time
        = some 4000) :=
  max_interval_forces ⟨600, 3600, 5, some 0, 2⟩ 4000 0 true rfl (by decide) (by decide) (by decide)

/-- A rule of SimpleRuleChecker: a field name plus a pattern. -/
structure Rule where
  key : String
  regexp : String
deriving DecidableEq

/-- Result of SimpleRuleChecker.check (dataclass RuleCheckResult); the
failed_fields dict is kept in insertion order. -/
structure RuleCheckResult where
  is_valid : Bool
  failed_fields : List (String × String)
  passed_fields : List String
  raw_analysis : List (String × String)
deriving DecidableEq

/-- Membership test and read of a Python dict modelled as an association
list in insertion order. -/
def dictLookup : List (String × String) → String → Option String
  | [], _ => none
  | (k0, v0) :: rest, k => if k0 = k then some v0 else dictLookup rest k

/-- The assignment d[k] = v on a Python dict: overwrites in place when the
key exists, otherwise appends. -/
def dictInsert : List (String × String) → String → String → List (String × String)
  | [], k, v => [(k, v)]
  | (k0, v0) :: rest, k, v =>
    if k0 = k then (k0, v) :: rest else (k0, v0) :: dictInsert rest k v

/-- SimpleRuleChecker._get_friendly_message: ignores the expected pattern
and prints the field with its value; a missing value prints as the Python
literal None. -/
def SimpleRuleChecker.get_friendly_message (key : String) (value : Option String)
    (expected : String) : String :=
  key ++ ": " ++ (match value with | none => "None" | some v => v)

/-- The loop body of SimpleRuleChecker.check over the rule list, carrying
the failed_fields dict and passed_fields list.  Analysis values arrive
already stringified (str(analysis[key])); the regular-expression call
re.match(regexp, value, IGNORECASE) is abstracted as the total function
re_match, so the re.error handler around it is unreachable. -/
def SimpleRuleChecker.checkLoop (re_match : String → String → Bool)
    (analysis : List (String × String)) :
    List Rule → List (String × String) → List String →
      List (String × String) × List String
  | [], failed_fields, passed_fields => (failed_fields, passed_fields)
  | rule :: rest, failed_fields, passed_fields =>
    match dictLookup analysis rule.key with
    | none =>
      SimpleRuleChecker.checkLoop re_match analysis rest
        (dictInsert failed_fields rule.key
          (SimpleRuleChecker.get_friendly_message rule.key none "字段缺失"))
        passed_fields
    | some value =>
      if re_match rule.regexp value then
        SimpleRuleChecker.checkLoop re_match analysis rest failed_fields
          (passed_fields ++ [rule.key])
      else
        SimpleRuleChecker.checkLoop re_match analysis rest
          (dictInsert failed_fields rule.key
            (SimpleRuleChecker.get_friendly_message rule.key (some value) rule.regexp))
        passed_fields

/-- SimpleRuleChecker.check. -/
def SimpleRuleChecker.check (re_match : String → String → Bool) (rules : List Rule)
    (analysis : List (String × String)) : RuleCheckResult :=
  let fp := SimpleRuleChecker.checkLoop re_match analysis rules [] []
  { is_valid := fp.1.length == 0
    failed_fields := fp.1
    passed_fields := fp.2
    raw_analysis := analysis }

/-- Helper: the friendly message for a missing field is the field name
followed by the stringified Python None. -/
theorem get_friendly_message_none (k e : String) :
    SimpleRuleChecker.get_friendly_message k none e = k ++ ": None" := by
  unfold SimpleRuleChecker.get_friendly_message
  rw [String.append_assoc]
  rfl

/-- Helper: the pair just assigned is in the dict. -/
theorem mem_dictInsert_self (d : List (String × String)) (k v : String) :
    (k, v) ∈ dictInsert d k v := by
  induction d with
  | nil => simp [dictInsert]
  | cons p rest ih =>
    obtain ⟨k0, v0⟩ := p
    by_cases h : k0 = k <;> simp [dictInsert, h, ih]

/-- Helper: an assignment under a different key preserves dict entries. -/
theorem mem_dictInsert_of_ne (d : List (String × String)) (k v k2 v2 : String)
    (hmem : (k, v) ∈ d) (hne : k ≠ k2) : (k, v) ∈ dictInsert d k2 v2 := by
  induction d with
  | nil => simp at hmem
  | cons p rest ih =>
    obtain ⟨k0, v0⟩ := p
    by_cases hk : k0 = k2
    · simp only [dictInsert, if_pos hk]
      rcases List.mem_cons.mp hmem with h | h
      · simp only [Prod.mk.injEq] at h
        exact absurd (h.1.trans hk) hne
      · exact List.mem_cons_of_mem _ h
    · simp only [dictInsert, if_neg hk]
      rcases List.mem_cons.mp hmem with h | h
      · exact h ▸ List.mem_cons_self _ _
      · exact List.mem_cons_of_mem _ (ih h)

/-- Helper: an assignment puts its key among the dict keys. -/
theorem mem_keys_dictInsert_self (d : List (String × String)) (k v : String) :
    k ∈ (dictInsert d k v).map Prod.fst := by
  induction d with
  | nil => simp [dictInsert]
  | cons p rest ih =>
    obtain ⟨k0, v0⟩ := p
    by_cases h : k0 = k <;> simp [dictInsert, h, ih]

/-- Helper: assignments preserve existing dict keys. -/
theorem mem_keys_dictInsert_of_mem (d : List (String × String)) (k k2 v2 : String)
    (hmem : k ∈ d.map Prod.fst) : k ∈ (dictInsert d k2 v2).map Prod.fst := by
  induction d with
  | nil => simp at hmem
  | cons p rest ih =>
    obtain ⟨k0, v0⟩ := p
    simp only [List.map_cons, List.mem_cons] at hmem
    by_cases hk : k0 = k2
    · simp only [dictInsert, if_pos hk, List.map_cons, List.mem_cons]
      exact hmem
    · simp only [dictInsert, if_neg hk, List.map_cons, List.mem_cons]
      rcases hmem with h1 | h1
      · exact Or.inl h1
      · exact Or.inr (ih h1)

/-- Helper: a recorded missing-field entry survives the rest of the loop. -/
theorem checkLoop_preserves_missing (re_match : String → String → Bool)
    (analysis : List (String × String)) (rules : List Rule) :
    ∀ failed passed k,
      dictLookup analysis k = none →
      (k, k ++ ": None") ∈ failed →
      (k, k ++ ": None") ∈
        (SimpleRuleChecker.checkLoop re_match analysis rules failed passed).1 := by
  induction rules with
  | nil => intro failed passed k _ hmem; exact hmem
  | cons r rest ih =>
    intro failed passed k hk hmem
    simp only [SimpleRuleChecker.checkLoop]
    cases hr : dictLookup analysis r.key with
    | none =>
      simp only [hr]
      apply ih _ _ _ hk
      by_cases hkey : r.key = k
      · subst hkey
        rw [get_friendly_message_none]
        exact mem_dictInsert_self _ _ _
      · exact mem_dictInsert_of_ne _ _ _ _ _ hmem (fun h => hkey h.symm)
    | some v =>
      simp only [hr]
      by_cases hm : re_match r.regexp v
      · rw [if_pos hm]
        exact ih _ _ _ hk hmem
      · rw [if_neg hm]
        apply ih _ _ _ hk
        apply mem_dictInsert_of_ne _ _ _ _ _ hmem
        intro hkk
        rw [← hkk, hk] at hr
        exact Option.noConfusion hr

/-- Helper: every rule over a missing field deposits its entry. -/
theorem checkLoop_missing_entry (re_match : String → String → Bool)
    (analysis : List (String × String)) (rules : List Rule) :
    ∀ failed passed, ∀ r ∈ rules, dictLookup analysis r.key = none →
      (r.key, r.key ++ ": None") ∈
        (SimpleRuleChecker.checkLoop re_match analysis rules failed passed).1 := by
  induction rules with
  | nil => intro failed passed r hr; simp at hr
  | cons r0 rest ih =>
    intro failed passed r hr hk
    rcases List.mem_cons.mp hr with h | h
    · subst h
      simp only [SimpleRuleChecker.checkLoop, hk]
      apply checkLoop_preserves_missing _ _ _ _ _ _ hk
      rw [get_friendly_message_none]
      exact mem_dictInsert_self _ _ _
    · simp only [SimpleRuleChecker.checkLoop]
      cases hr0 : dictLookup analysis r0.key with
      | none =>
        simp only [hr0]
        exact ih _ _ r h hk
      | some v =>
        simp only [hr0]
        by_cases hm : re_match r0.regexp v
        · rw [if_pos hm]; exact ih _ _ r h hk
        · rw [if_neg hm]; exact ih _ _ r h hk

/-- Helper: keys already in failed_fields survive the loop. -/
theorem checkLoop_preserves_failed_key (re_match : String → String → Bool)
    (analysis : List (String × String)) (rules : List Rule) :
    ∀ failed passed k, k ∈ failed.map Prod.fst →
      k ∈ (SimpleRuleChecker.checkLoop re_match analysis rules failed passed).1.map Prod.fst := by
  induction rules with
  | nil => intro failed passed k hmem; exact hmem
  | cons r rest ih =>
    intro failed passed k hmem
    simp only [SimpleRuleChecker.checkLoop]
    cases hr : dictLookup analysis r.key with
    | none =>
      simp only [hr]
      exact ih _ _ _ (mem_keys_dictInsert_of_mem _ _ _ _ hmem)
    | some v =>
      simp only [hr]
      by_cases hm : re_match r.regexp v
      · rw [if_pos hm]; exact ih _ _ _ hmem
      · rw [if_neg hm]; exact ih _ _ _ (mem_keys_dictInsert_of_mem _ _ _ _ hmem)

/-- Helper: entries already in passed_fields survive the loop. -/
theorem checkLoop_preserves_passed (re_match : String → String → Bool)
    (analysis : List (String × String)) (rules : List Rule) :
    ∀ failed passed k, k ∈ passed →
      k ∈ (SimpleRuleChecker.checkLoop re_match analysis rules failed passed).2 := by
  induction rules with
  | nil => intro failed passed k hmem; exact hmem
  | cons r rest ih =>
    intro failed passed k hmem
    simp only [SimpleRuleChecker.checkLoop]
    cases hr : dictLookup analysis r.key with
    | none =>
      simp only [hr]
      exact ih _ _ _ hmem
    | some v =>
      simp only [hr]
      by_cases hm : re_match r.regexp v
      · rw [if_pos hm]
        exact ih _ _ _ (List.mem_append_left _ hmem)
      · rw [if_neg hm]; exact ih _ _ _ hmem

/-- Helper: every rule lands its key in failed_fields or passed_fields. -/
theorem checkLoop_coverage (re_match : String → String → Bool)
    (analysis : List (String × String)) (rules : List Rule) :
    ∀ failed passed, ∀ r ∈ rules,
      r.key ∈ (SimpleRuleChecker.checkLoop re_match analysis rules failed passed).1.map Prod.fst ∨
      r.key ∈ (SimpleRuleChecker.checkLoop re_match analysis rules failed passed).2 := by
  induction rules with
  | nil => intro failed passed r hr; simp at hr
  | cons r0 rest ih =>
    intro failed passed r hr
    rcases List.mem_cons.mp hr with h | h
    · subst h
      simp only [SimpleRuleChecker.checkLoop]
      cases hr0 : dictLookup analysis r.key with
      | none =>
        simp only [hr0]
        exact Or.inl (checkLoop_preserves_failed_key _ _ _ _ _ _
          (mem_keys_dictInsert_self _ _ _))
      | some v =>
        simp only [hr0]
        by_cases hm : re_match r.regexp v
        · rw [if_pos hm]
          exact Or.inr (checkLoop_preserves_passed _ _ _ _ _ _
            (List.mem_append_right _ (List.mem_singleton.mpr rfl)))
        · rw [if_neg hm]
          exact Or.inl (checkLoop_preserves_failed_key _ _ _ _ _ _
            (mem_keys_dictInsert_self _ _ _))
    · simp only [SimpleRuleChecker.checkLoop]
      cases hr0 : dictLookup analysis r0.key with
      | none =>
        simp only [hr0]
        exact ih _ _ r h
      | some v =>
        simp only [hr0]
        by_cases hm : re_match r0.regexp v
        · rw [if_pos hm]; exact ih _ _ r h
        · rw [if_neg hm]; exact ih _ _ r h

/-- Counterexample for claim C4 as stated: a single rule over an absent
field records the failure reason string "at_desk: None", built by
_get_friendly_message from the field and the Python None value, and not
the reason "field missing" stated in the specification. -/
theorem missing_field_reason_counterexample :
    (SimpleRuleChecker.check (fun _ _ => true) [⟨"at_desk", "^true$"⟩] []).failed_fields
        = [("at_desk", "at_desk: None")] ∧
    (SimpleRuleChecker.check (fun _ _ => true) [⟨"at_desk", "^true$"⟩]
        []).failed_fields.contains ("at_desk", "field missing") = false := by
  constructor
  · rfl
  · rfl

/-- Claim C4 (amended): every rule whose field is absent from the analysis
contributes the failed_fields entry (field, "field: None"), regardless of
the other fields and rules; is_valid is true iff failed_fields is empty;
and all rules are evaluated with no short-circuit: every rule leaves its
field in failed_fields or in passed_fields. -/
theorem rule_check_missing_and_coverage (re_match : String → String → Bool)
    (rules : List Rule) (analysis : List (String × String)) :
    (∀ r ∈ rules, dictLookup analysis r.key = none →
        (r.key, r.key ++ ": None") ∈
          (SimpleRuleChecker.check re_match rules analysis).failed_fields) ∧
    ((SimpleRuleChecker.check re_match rules analysis).is_valid = true ↔
        (SimpleRuleChecker.check re_match rules analysis).failed_fields = []) ∧
    (∀ r ∈ rules,
        r.key ∈ (SimpleRuleChecker.check re_match rules analysis).failed_fields.map Prod.fst ∨
        r.key ∈ (SimpleRuleChecker.check re_match rules analysis).passed_fields) := by
  refine ⟨?_, ?_, ?_⟩
  · intro r hr hk
    exact checkLoop_missing_entry re_match analysis rules [] [] r hr hk
  · simp [SimpleRuleChecker.check, List.length_eq_zero]
  · intro r hr
    exact checkLoop_coverage re_match analysis rules [] [] r hr

/-- Witness for C4: two rules, one over a field absent from the analysis
and one over a present field. -/
theorem rule_check_missing_and_coverage_witness :
    ("at_desk", "at_desk: None") ∈
      (SimpleRuleChecker.check (fun _ v => v = "true") [⟨"at_desk", "^true$"⟩, ⟨"phone", "^no$"⟩]
        [("phone", "false")]).failed_fields ∧
    ((SimpleRuleChecker.check (fun _ v => v = "true") [⟨"at_desk", "^true$"⟩, ⟨"phone", "^no$"⟩]
        [("phone", "false")]).is_valid = true ↔
      (SimpleRuleChecker.check (fun _ v => v = "true") [⟨"at_desk", "^true$"⟩, ⟨"phone", "^no$"⟩]
        [("phone", "false")]).failed_fields = []) ∧
    ("phone" ∈ (SimpleRuleChecker.check (fun _ v => v = "true")
        [⟨"at_desk", "^true$"⟩, ⟨"phone", "^no$"⟩]
        [("phone", "false")]).failed_fields.map Prod.fst ∨
     "phone" ∈ (SimpleRuleChecker.check (fun _ v => v = "true")
        [⟨"at_desk", "^true$"⟩, ⟨"phone", "^no$"⟩]
        [("phone", "false")]).passed_fields) :=
  ⟨(rule_check_missing_and_coverage (fun _ v => v = "true")
      [⟨"at_desk", "^true$"⟩, ⟨"phone", "^no$"⟩] [("phone", "false")]).1
      ⟨"at_desk", "^true$"⟩ (List.mem_cons_self _ _) rfl,
   (rule_check_missing_and_coverage (fun _ v => v = "true")
      [⟨"at_desk", "^true$"⟩, ⟨"phone", "^no$"⟩] [("phone", "false")]).2.1,
   (rule_check_missing_and_coverage (fun _ v => v = "true")
      [⟨"at_desk", "^true$"⟩, ⟨"phone", "^no$"⟩] [("phone", "false")]).2.2
      ⟨"phone", "^no$"⟩ (List.mem_cons_of_mem _ (List.mem_cons_self _ _))⟩

/-- Observable outcome of one SimpleMonitorService.process_snapshot call:
the returned NotifyResult, the notify-manager state afterwards, the
monitoring flag afterwards, the rule verdict if one was produced, whether
a record was saved and a notification send attempted, and the
snapshots_processed counter afterwards. -/
structure ProcessOutcome where
  result : NotifyResult
  manager : NotifyManager
  monitoring : Bool
  verdict : Option RuleCheckResult
  saved_record : Bool
  sent_notification : Bool
  snapshots_processed : Nat
deriving DecidableEq

/-- SimpleMonitorService.process_snapshot.  The Vision analyzer call is
passed in as an Except value: error models the analyzer raising, which
jumps to the except handler before any rule check, throttle update,
storage write or notification; ok carries the flat analysis dict.  On the
success path the service checks rules, consults the notify manager, saves
a record, sends iff should_notify, and calls stop_monitor iff should_stop
(stop_monitor clears the monitoring flag). -/
def process_snapshot (re_match : String → String → Bool) (rules : List Rule)
    (m : NotifyManager) (monitoring : Bool) (snapshots : Nat) (now : Int)
    (analysis : Except String (List (String × String))) : ProcessOutcome :=
  match analysis with
  | Except.error e =>
    { result := { should_notify := false, should_stop := false,
                  level := NotifyLevel.info, reason := "处理失败: " ++ e }
      manager := m
      monitoring := monitoring
      verdict := none
      saved_record := false
      sent_notification := false
      snapshots_processed := snapshots }
  | Except.ok a =>
    let rc := SimpleRuleChecker.check re_match rules a
    let nr := m.should_notify_stop now rc.is_valid
    { result := nr.1
      manager := nr.2
      monitoring := if nr.1.should_stop then false else monitoring
      verdict := some rc
      saved_record := true
      sent_notification := nr.1.should_notify
      snapshots_processed := snapshots + 1 }

/-- Claim C8: when the analyzer raises, process_snapshot leaves the
throttle state exactly as it was, produces no verdict, saves no record,
sends no notification, returns should_notify = false and
should_stop = false, and leaves the monitoring flag (and the snapshot
counter) untouched. -/
theorem analyzer_failure_preserves_state (re_match : String → String → Bool)
    (rules : List Rule) (m : NotifyManager) (monitoring : Bool)
    (snapshots : Nat) (now : Int) (e : String) :
    process_snapshot re_match rules m monitoring snapshots now (Except.error e) =
      { result := { should_notify := false, should_stop := false,
                    level := NotifyLevel.info, reason := "处理失败: " ++ e }
        manager := m
        monitoring := monitoring
        verdict := none
        saved_record := false
        sent_notification := false
        snapshots_processed := snapshots } := rfl

/-- Scheduler-local state of SimpleMonitorService._time_scheduler_loop:
the three loop variables, with dates and minutes-since-midnight as
naturals. -/
structure SchedState where
  last_check_date : Option Nat
  last_check_minute : Option Nat
  last_auto_start_date : Option Nat
deriving DecidableEq

/-- Outcome of one scheduler tick: the loop variables afterwards, the
monitoring flag afterwards, and whether this tick called start_monitor
respectively stop_monitor. -/
structure TickOutcome where
  state : SchedState
  monitoring : Bool
  started : Bool
  stopped : Bool
deriving DecidableEq

/-- One iteration of the while body of _time_scheduler_loop: day rollover
reset, window membership, the once-per-day edge-triggered start, the
edge-triggered stop (which reads the monitoring flag after a possible
start), and the last_check_minute update. -/
def scheduler_tick (start_total_min stop_total_min : Nat) (st0 : SchedState)
    (monitoring0 : Bool) (date minute : Nat) : TickOutcome :=
  let st1 : SchedState :=
    if st0.last_check_date = some date then st0
    else { last_check_date := some date, last_check_minute := none,
           last_auto_start_date := none }
  let in_monitoring_window : Bool :=
    decide (start_total_min ≤ minute) && decide (minute < stop_total_min)
  let should_start : Bool :=
    !monitoring0 && in_monitoring_window && !(st1.last_auto_start_date == some date)
  let monitoring1 : Bool := if should_start then true else monitoring0
  let should_stop : Bool :=
    monitoring1 &&
      (match st1.last_check_minute with
       | none => false
       | some pm => decide (pm < stop_total_min) && decide (stop_total_min ≤ minute))
  let monitoring2 : Bool := if should_stop then false else monitoring1
  { state :=
      { last_check_date := st1.last_check_date
        last_check_minute := some minute
        last_auto_start_date :=
          if should_start then some date else st1.last_auto_start_date }
    monitoring := monitoring2
    started := should_start
    stopped := should_stop }

/-- One scheduler tick input: the wall-clock date and minute, and an
optional externally imposed monitoring flag before the tick (modelling a
start or stop initiated outside the scheduler, such as the
failure-limit stop). -/
structure TickInput where
  date : Nat
  minute : Nat
  external_monitoring : Option Bool
deriving DecidableEq

/-- Accumulated outcome of a run of scheduler ticks. -/
structure SchedulerRun where
  state : SchedState
  monitoring : Bool
  start_count : Nat
  stop_count : Nat
deriving DecidableEq

/-- Folds scheduler_tick over a list of tick inputs, counting how many
ticks called start_monitor and stop_monitor. -/
def run_scheduler (start_total_min stop_total_min : Nat) :
    SchedState → Bool → List TickInput → SchedulerRun
  | st, monitoring, [] =>
    { state := st, monitoring := monitoring, start_count := 0, stop_count := 0 }
  | st, monitoring, tick :: rest =>
    let mon := tick.external_monitoring.getD monitoring
    let o := scheduler_tick start_total_min stop_total_min st mon tick.date tick.minute
    let r := run_scheduler start_total_min stop_total_min o.state o.monitoring rest
    { state := r.state
      monitoring := r.monitoring
      start_count := (if o.started then 1 else 0) + r.start_count
      stop_count := (if o.stopped then 1 else 0) + r.stop_count }

/-- Helper: on a day on which an auto start is already recorded, a tick of
that day never starts and preserves the recorded day. -/
theorem tick_no_restart_same_day (sM tM d : Nat) (st : SchedState) (mon : Bool)
    (minute : Nat)
    (hstart : st.last_auto_start_date = some d)
    (hdate : st.last_check_date = some d) :
    (scheduler_tick sM tM st mon d minute).started = false ∧
    (scheduler_tick sM tM st mon d minute).state.last_auto_start_date = some d ∧
    (scheduler_tick sM tM st mon d minute).state.last_check_date = some d := by
  unfold scheduler_tick
  simp [hdate, hstart]

/-- Helper: with an auto start recorded for day d, no tick of a run that
stays on day d ever starts, whatever the monitoring flag does in between. -/
theorem run_no_restart_same_day (sM tM d : Nat) (ticks : List TickInput) :
    ∀ st mon, st.last_auto_start_date = some d → st.last_check_date = some d →
      (∀ tk ∈ ticks, tk.date = d) →
      (run_scheduler sM tM st mon ticks).start_count = 0 := by
  induction ticks with
  | nil => intro st mon _ _ _; rfl
  | cons tk rest ih =>
    intro st mon h1 h2 h3
    have hd : tk.date = d := h3 tk (List.mem_cons_self _ _)
    have htick := tick_no_restart_same_day sM tM d st
      (tk.external_monitoring.getD mon) tk.minute h1 h2
    simp only [run_scheduler, hd]
    rw [htick.1]
    simp only [Bool.false_eq_true, if_false, Nat.zero_add]
    exact ih _ _ htick.2.1 htick.2.2 (fun tk2 h => h3 tk2 (List.mem_cons_of_mem _ h))

/-- Helper: a tick with no day rollover stops only when a previous minute
is recorded, that minute is before the stop boundary, and the current
minute is at or past it. -/
theorem tick_stop_edge (sM tM : Nat) (st : SchedState) (mon : Bool)
    (date minute : Nat)
    (hdate : st.last_check_date = some date)
    (hstop : (scheduler_tick sM tM st mon date minute).stopped = true) :
    st.last_check_minute.isSome = true ∧
    st.last_check_minute.getD 0 < tM ∧ tM ≤ minute := by
  simp only [scheduler_tick, hdate] at hstop
  cases hm : st.last_check_minute with
  | none => simp [hm] at hstop
  | some pm =>
    simp [hm] at hstop
    exact ⟨by simp [hm], by simp [hm, hstop.2.1], hstop.2.2⟩

/-- Claim C3: with window 09:00 to 18:00 (minutes 540 and 1080), a tick at
08:59 then one at 09:00 trigger exactly one start; a tick at 17:59 then
one at 18:00 while monitoring trigger exactly one stop; in general a tick
with no day rollover stops only when the previous tick minute was before
the stop boundary and the current minute is at or past it; and once an
auto start is recorded for a day, no later tick of that day starts again,
even if monitoring was stopped in between. -/
theorem daily_scheduler_edge_triggered :
    (run_scheduler 540 1080 ⟨none, none, none⟩ false
        [⟨0, 539, none⟩, ⟨0, 540, none⟩]).start_count = 1 ∧
    (run_scheduler 540 1080 ⟨some 0, some 1078, some 0⟩ true
        [⟨0, 1079, none⟩, ⟨0, 1080, none⟩]).stop_count = 1 ∧
    (∀ sM tM : Nat, ∀ st : SchedState, ∀ mon : Bool, ∀ date minute : Nat,
        st.last_check_date = some date →
        (scheduler_tick sM tM st mon date minute).stopped = true →
        st.last_check_minute.isSome = true ∧
        st.last_check_minute.getD 0 < tM ∧ tM ≤ minute) ∧
    (∀ sM tM d : Nat, ∀ ticks : List TickInput, ∀ st : SchedState, ∀ mon : Bool,
        st.last_auto_start_date = some d → st.last_check_date = some d →
        (∀ tk ∈ ticks, tk.date = d) →
        (run_scheduler sM tM st mon ticks).start_count = 0) :=
  ⟨by decide, by decide,
   fun sM tM st mon date minute h1 h2 => tick_stop_edge sM tM st mon date minute h1 h2,
   fun sM tM d ticks st mon h1 h2 h3 => run_no_restart_same_day sM tM d ticks st mon h1 h2 h3⟩

/-- Witness for C3: the morning double tick, one stop edge at 18:00 from a
recorded 17:59 minute, and an afternoon pair of ticks after an external
stop on a day whose auto start is already recorded. -/
theorem daily_scheduler_edge_witness :
    (run_scheduler 540 1080 ⟨none, none, none⟩ false
        [⟨0, 539, none⟩, ⟨0, 540, none⟩]).start_count = 1 ∧
    ((⟨some 0, some 1079, some 0⟩ : SchedState).last_check_minute.isSome = true ∧
     (⟨some 0, some 1079, some 0⟩ : SchedState).last_check_minute.getD 0 < 1080 ∧
     1080 ≤ 1080) ∧
    (run_scheduler 540 1080 ⟨some 0, some 700, some 0⟩ false
        [⟨0, 800, some false⟩, ⟨0, 900, none⟩]).start_count = 0 :=
  ⟨daily_scheduler_edge_triggered.1,
   daily_scheduler_edge_triggered.2.2.1 540 1080 ⟨some 0, some 1079, some 0⟩ true 0 1080
     rfl (by decide),
   daily_scheduler_edge_triggered.2.2.2 540 1080 0 [⟨0, 800, some false⟩, ⟨0, 900, none⟩]
     ⟨some 0, some 700, some 0⟩ false rfl rfl (by decide)⟩

/-- State of CameraSingleton relevant to mode switching: cap = some b
models a cv2.VideoCapture handle whose isOpened() returns b, cap = none
models self.cap is None; mode is the current mode string. -/
structure CameraState where
  cap : Option Bool
  mode : Option String
deriving DecidableEq

/-- Outcome of CameraSingleton.switch_to_mode: the returned Bool, the
state afterwards, whether the old handle was released, and whether the
settle delay time.sleep(switch_delay) ran. -/
structure SwitchOutcome where
  ok : Bool
  state : CameraState
  released_handle : Bool
  slept_switch_delay : Bool
deriving DecidableEq

/-- CameraSingleton.switch_to_mode.  open_ok tells whether reopening
cv2.VideoCapture(camera_index) yields an opened handle.  The sleep guard
mirrors the source exactly: it tests self.mode after the close block has
already assigned self.mode = None. -/
def switch_to_mode (st : CameraState) (target_mode : String) (open_ok : Bool) :
    SwitchOutcome :=
  if st.mode = some target_mode ∧ st.cap = some true then
    { ok := true, state := st, released_handle := false, slept_switch_delay := false }
  else
    let released := st.cap.isSome
    let st1 : CameraState :=
      if st.cap.isSome then { cap := none, mode := none } else st
    let slept := st1.mode.isSome
    if open_ok then
      { ok := true, state := { cap := some true, mode := some target_mode },
        released_handle := released, slept_switch_delay := slept }
    else
      { ok := false, state := { cap := some false, mode := st1.mode },
        released_handle := released, slept_switch_delay := slept }

/-- Claim C5 fails on the code: switching an open stream-mode handle to
capture mode releases the handle and reopens it in the new mode, but the
settle delay never runs, because the close block assigns self.mode = None
before the guard `if self.mode is not None` that protects the sleep; the
switch completes with the sleep skipped. -/
theorem switch_mode_skips_settle_delay :
    (switch_to_mode ⟨some true, some "stream"⟩ "capture" true).released_handle = true ∧
    (switch_to_mode ⟨some true, some "stream"⟩ "capture" true).state
        = ⟨some true, some "capture"⟩ ∧
    (switch_to_mode ⟨some true, some "stream"⟩ "capture" true).ok = true ∧
    (switch_to_mode ⟨some true, some "stream"⟩ "capture" true).slept_switch_delay
        = false := by
  refine ⟨rfl, rfl, rfl, rfl⟩

end StudyBuddy
